import Mathlib

/-!
Verification of the inference-serving layer of the docker_cellar repository:
the ML-pipeline API (src/3-ML_Pipeline/api/src/main.py, utils.py, models.py)
and the ONNX serving app (src/4-ONNX_Server/app/main.py).

Numeric feature values are modelled as rationals (the Python floats), the
inference engine (onnxruntime session.run) as an abstract function, and the
Redis backend as an in-memory association list together with failure flags
for its get/set operations.
-/

namespace MLServe

/-! ### Cache key serialization (main.py line 178)

The cache key is the string `"prediction:" + str(hash(json.dumps(request.data,
sort_keys=True)))`.  `JTok` models the lexical atoms of the JSON text produced
by `json.dumps` on a list of lists of numbers: brackets, commas and numeric
literals.  Each atom is rendered as a distinct character sequence, so equality
of the rendered strings coincides with equality of the token lists. -/
inductive JTok where
  | lb
  | rb
  | comma
  | num (q : Rat)
deriving DecidableEq

/-- Tokens of one row body: the numbers separated by commas, mirroring the
JSON rendering `x, y, z` of a Python list body. -/
def serRowAux : List Rat → List JTok
  | [] => []
  | [x] => [JTok.num x]
  | x :: y :: t => JTok.num x :: JTok.comma :: serRowAux (y :: t)

/-- Tokens of one row: the bracketed, comma-separated numbers. -/
def serRow (r : List Rat) : List JTok :=
  JTok.lb :: serRowAux r ++ [JTok.rb]

/-- Tokens of the matrix body: the rows separated by commas. -/
def serMatAux : List (List Rat) → List JTok
  | [] => []
  | [r] => serRow r
  | r :: s :: t => serRow r ++ JTok.comma :: serMatAux (s :: t)

/-- Token stream of `json.dumps(data, sort_keys=True)` for a list of lists of
numbers (there are no dicts in the value, so `sort_keys` has no effect). -/
def jsonTokens (m : List (List Rat)) : List JTok :=
  JTok.lb :: serMatAux m ++ [JTok.rb]

/-- The cache key `f"prediction:\x7bhash(json.dumps(request.data, sort_keys=True))\x7d"`.
The Python code renders the key as the tag followed by the decimal rendering
of the hash integer; decimal rendering of integers is injective, so equality
of the rendered strings coincides with equality of this structured key. -/
structure CacheKey where
  tag : String
  hashVal : Int
deriving DecidableEq

/-- Cache-key computation, parameterized by the process hash function on the
serialized JSON text (Python `hash` is fixed within one process). -/
def fingerprint (hashF : List JTok → Int) (data : List (List Rat)) : CacheKey :=
  ⟨"prediction:", hashF (jsonTokens data)⟩

/-! ### Model manager (utils.py, class ModelManager) -/

/-- Content of the metadata dict (`model_metadata.json`); fields are optional
because the dict may lack any key (`self.metadata = \x7b\x7d` initially).
`input_features` is `metadata.get("input_shape", [None, None])[1]`. -/
structure Metadata where
  model_name : Option String
  model_type : Option String
  input_features : Option Nat
deriving DecidableEq

def emptyMetadata : Metadata := ⟨none, none, none⟩

/-- The model manager: an optional loaded onnxruntime session (abstracted to
an identifier) and the metadata dict.  Both fields are mutated in place by
`load_models`. -/
structure ModelManager where
  session : Option Nat
  metadata : Metadata
deriving DecidableEq

/-- `get_model_name`: `self.metadata.get("model_name", "unknown")`. -/
def getModelName (mm : ModelManager) : String :=
  mm.metadata.model_name.getD "unknown"

/-- The opaque inference engine (`session.run`): given the input matrix it
fails with an exception message or returns predictions and, when the model
declares a second output, the per-row class probabilities
(`outputs[1].tolist() if len(outputs) > 1 else []`). -/
def EngineFun : Type :=
  List (List Rat) → Except String (List Int × Option (List (List Rat)))

/-- Exceptions raised inside `ModelManager.predict` (utils.py lines 122-152). -/
inductive PredictError where
  | modelNotLoaded
  | badInput (msg : String)
  | shapeMismatch (expected got : Nat)
  | inference (msg : String)
deriving DecidableEq

/-- The `str()` of the underlying Python exception. -/
def predictErrorMsg : PredictError → String
  | PredictError.modelNotLoaded => "Model not loaded"
  | PredictError.badInput m => m
  | PredictError.shapeMismatch e g =>
      "Invalid input shape. Expected " ++ toString e ++ " features, got " ++ toString g
  | PredictError.inference m => m

/-- `ModelManager.predict` (utils.py lines 122-152): session check, numpy
conversion (which fails on ragged rows), `shape[1]` access (which fails on an
empty batch), the expected-feature check (skipped when the metadata value is
missing or zero, by Python truthiness), then the engine run.  The second
component records whether `session.run` was actually invoked. -/
def mmPredict (mm : ModelManager) (engine : EngineFun) (data : List (List Rat)) :
    Except PredictError (List Int × List (List Rat)) × Bool :=
  if mm.session.isNone then
    (Except.error PredictError.modelNotLoaded, false)
  else if !(data.all fun r => r.length == (data.head?.getD []).length) then
    (Except.error (PredictError.badInput "setting an array element with a sequence"), false)
  else
    match data.head? with
    | none => (Except.error (PredictError.badInput "tuple index out of range"), false)
    | some r0 =>
      let run : Except PredictError (List Int × List (List Rat)) × Bool :=
        match engine data with
        | Except.ok (preds, probs) => (Except.ok (preds, probs.getD []), true)
        | Except.error m => (Except.error (PredictError.inference m), true)
      match mm.metadata.input_features with
      | some ef =>
        if ef != 0 && r0.length != ef then
          (Except.error (PredictError.shapeMismatch ef r0.length), false)
        else run
      | none => run

/-! ### Serving facade (main.py) -/

/-- The request body (models.py, class PredictionRequest). -/
structure PredictionRequest where
  data : List (List Rat)
  use_cache : Bool
  cache_ttl : Nat
deriving DecidableEq

/-- The `model_info` dict of a response: a successful prediction carries at
least the model name and the `cached` flag (wall-clock `prediction_time` and
the numpy `input_shape` are not modelled); a failed batch slot carries only an
`error` entry. -/
inductive ModelInfo where
  | info (model_name : String) (cached : Bool)
  | errInfo (msg : String)
deriving DecidableEq

/-- The response body (models.py, class PredictionResponse). -/
structure PredictionResponse where
  predictions : List Int
  probabilities : List (List Rat)
  model_info : ModelInfo
deriving DecidableEq

/-- The `cached` entry of `model_info`, absent on batch error markers. -/
def PredictionResponse.cachedFlag (r : PredictionResponse) : Option Bool :=
  match r.model_info with
  | ModelInfo.info _ c => some c
  | ModelInfo.errInfo _ => none

/-- An HTTPException: status code and detail string. -/
structure ApiError where
  status : Nat
  detail : String
deriving DecidableEq

/-- Observable side effects of one pass through the `predict` endpoint, in
program order: a Redis `get`, a `session.run`, scheduling of the background
cache write, and the `PREDICTION_COUNT.inc()` success-counter increment. -/
inductive Event where
  | cacheLookup
  | engineRun
  | cacheStore
  | successInc
deriving DecidableEq

/-- Process state of the API (main.py globals): the model manager, whether the
Redis client was initialized, failure flags for the Redis get/set operations,
the cache contents, and the success counter.  The cache is an association
list; a fresh store is consed in front, matching Redis SET overwrite
semantics under first-match lookup. -/
structure ServerState where
  mm : Option ModelManager
  redisAvailable : Bool
  cacheGetFails : Bool
  cacheSetFails : Bool
  cache : List (CacheKey × PredictionResponse)
  predictionCount : Nat
deriving DecidableEq

/-- `if not model_manager or not model_manager.is_loaded()`. -/
def serverLoaded (st : ServerState) : Bool :=
  match st.mm with
  | some mm => mm.session.isSome
  | none => false

/-- The Redis `get` wrapped in its try/except (main.py lines 180-186): a raise
from the backend (or a parse failure of the stored blob) is caught and treated
as a miss.  An unexpired stored entry is returned as the parsed response;
pydantic JSON round-tripping is the identity on the modelled fields. -/
def cacheGet (st : ServerState) (k : CacheKey) : Option PredictionResponse :=
  if st.cacheGetFails then none
  else (st.cache.find? fun e => e.fst == k).map Prod.snd

deriving instance DecidableEq for Except

/-- Result of one call to the `predict` endpoint: the state after the call
(with the background cache write, if any, already applied), the HTTP outcome,
and the event trace. -/
structure StepResult where
  state : ServerState
  result : Except ApiError PredictionResponse
  events : List Event
deriving DecidableEq

/-- The `predict` endpoint (main.py lines 163-223).  In program order: the
loaded check (503), cache-key computation and Redis lookup when the client
and the request enable caching, an early return of the parsed cached response
on a hit, `model_manager.predict`, response construction with `cached: False`,
scheduling of the background store (`cache_prediction_result`, whose own
failure is swallowed), the success-counter increment, and the catch-all that
rewraps any predict exception as HTTP 500. -/
def predictStep (hashF : List JTok → Int) (engine : EngineFun)
    (st : ServerState) (req : PredictionRequest) : StepResult :=
  match st.mm with
  | none => ⟨st, Except.error ⟨503, "Model not loaded"⟩, []⟩
  | some mm =>
    if mm.session.isNone then ⟨st, Except.error ⟨503, "Model not loaded"⟩, []⟩
    else
      let key? : Option CacheKey :=
        if st.redisAvailable && req.use_cache then some (fingerprint hashF req.data)
        else none
      let lookup : Option PredictionResponse :=
        match key? with
        | some k => cacheGet st k
        | none => none
      let evs0 : List Event := if key?.isSome then [Event.cacheLookup] else []
      match lookup with
      | some cachedResp => ⟨st, Except.ok cachedResp, evs0⟩
      | none =>
        match mmPredict mm engine req.data with
        | (Except.error e, ran) =>
          ⟨st, Except.error ⟨500, "Prediction failed: " ++ predictErrorMsg e⟩,
            evs0 ++ (if ran then [Event.engineRun] else [])⟩
        | (Except.ok (preds, probs), _) =>
          let resp : PredictionResponse :=
            ⟨preds, probs, ModelInfo.info (getModelName mm) false⟩
          let doStore := st.redisAvailable && key?.isSome && req.use_cache
          let st1 :=
            match key? with
            | some k =>
              if st.redisAvailable && req.use_cache && !st.cacheSetFails then
                { st with cache := (k, resp) :: st.cache }
              else st
            | none => st
          let st2 := { st1 with predictionCount := st1.predictionCount + 1 }
          ⟨st2, Except.ok resp,
            evs0 ++ [Event.engineRun]
              ++ (if doStore then [Event.cacheStore] else []) ++ [Event.successInc]⟩

/-- The error marker appended for a failed batch slot (main.py lines 243-252):
a `PredictionResponse` with empty predictions and probabilities and
`model_info = \x7b"error": str(e.detail)\x7d`. -/
def errorMarker (detail : String) : PredictionResponse :=
  ⟨[], [], ModelInfo.errInfo detail⟩

/-- The loop body of `predict_batch` (main.py lines 238-252): each request is
passed to `predict` in order; an `HTTPException` from one slot is caught and
replaced by an error marker, and the loop continues with the next slot. -/
def runBatch (hashF : List JTok → Int) (engine : EngineFun) :
    ServerState → List PredictionRequest → ServerState × List PredictionResponse
  | st, [] => (st, [])
  | st, r :: rs =>
    let step := predictStep hashF engine st r
    let slot :=
      match step.result with
      | Except.ok resp => resp
      | Except.error e => errorMarker e.detail
    let rest := runBatch hashF engine step.state rs
    (rest.fst, slot :: rest.snd)

/-- The `predict_batch` endpoint (main.py lines 226-254): the loaded check
(503 for the whole batch), then the per-slot loop. -/
def predictBatch (hashF : List JTok → Int) (engine : EngineFun)
    (st : ServerState) (reqs : List PredictionRequest) :
    Except ApiError (ServerState × List PredictionResponse) :=
  if serverLoaded st then Except.ok (runBatch hashF engine st reqs)
  else Except.error ⟨503, "Model not loaded"⟩

/-- The server state in force when batch slot `i` is processed: the state
left behind by the preceding slots. -/
def stateAt (hashF : List JTok → Int) (engine : EngineFun) :
    ServerState → List PredictionRequest → Nat → ServerState
  | st, _, 0 => st
  | st, [], _ + 1 => st
  | st, r :: rs, i + 1 => stateAt hashF engine (predictStep hashF engine st r).state rs i

/-! ### Model loading and reload (utils.py load_models, main.py reload_models) -/

/-- One execution environment for `load_models`: the glob result for
`models/*.onnx`, the outcome of the `ort.InferenceSession` construction, and
the metadata document (`none` when `model_metadata.json` does not exist,
otherwise the outcome of `json.load`). -/
structure LoadEnv where
  modelFiles : List String
  sessionLoad : Except String Nat
  metadataDoc : Option (Except String Metadata)
deriving DecidableEq

/-- `Path.stem`: the file name up to the first dot of its suffix, modelled as
the part before the first dot. -/
def stem (f : String) : String :=
  (f.splitOn ".").headD f

/-- `ModelManager.load_models` (utils.py lines 66-106).  Mutates the manager
in place: `self.session` is assigned as soon as the session construction
succeeds, and only then is the metadata document read into `self.metadata`
(or synthesized from the artifact name when the document is absent).  A
failure at any point re-raises after whatever assignments already happened. -/
def loadModels (mm : ModelManager) (env : LoadEnv) : ModelManager × Except String Unit :=
  match env.modelFiles with
  | [] => (mm, Except.error "No ONNX models found")
  | f :: _ =>
    match env.sessionLoad with
    | Except.error e => (mm, Except.error e)
    | Except.ok s =>
      let mm1 : ModelManager := { mm with session := some s }
      match env.metadataDoc with
      | some (Except.error e) => (mm1, Except.error e)
      | some (Except.ok md) => ({ mm1 with metadata := md }, Except.ok ())
      | none => ({ mm1 with metadata := ⟨some (stem f), some "unknown", none⟩ }, Except.ok ())

/-- The `reload_models` endpoint (main.py lines 257-287): run `load_models`
on the existing manager (or a fresh one when the global is unset), return 500
on failure (leaving whatever the partial mutation produced), otherwise flush
the Redis database — swallowing any flush failure — and return the new model
name. -/
def reloadModels (st : ServerState) (env : LoadEnv) (flushFails : Bool) :
    ServerState × Except ApiError String :=
  let mm0 := st.mm.getD ⟨none, emptyMetadata⟩
  let load := loadModels mm0 env
  match load.snd with
  | Except.error e =>
    ({ st with mm := some load.fst }, Except.error ⟨500, "Model reload failed: " ++ e⟩)
  | Except.ok _ =>
    let st1 := { st with mm := some load.fst }
    let st2 :=
      if st1.redisAvailable && !flushFails then { st1 with cache := [] } else st1
    (st2, Except.ok (getModelName load.fst))

/-! ### The ONNX serving app (src/4-ONNX_Server/app/main.py) -/

/-- Process state of the ONNX server: the `MODEL_SESSION` and
`MODEL_METADATA` globals. -/
structure OnnxState where
  session : Option Nat
  metadata : Metadata
deriving DecidableEq

/-- A Python exception as seen by the catch-all handler: an `HTTPException`
(with status and detail) or an ordinary exception with a message. -/
inductive PyExc where
  | http (status : Nat) (detail : String)
  | valueError (msg : String)
deriving DecidableEq

/-- `str(e)` for the exceptions above; Starlette renders an `HTTPException`
as `"status: detail"`. -/
def pyExcStr : PyExc → String
  | PyExc.http s d => toString s ++ ": " ++ d
  | PyExc.valueError m => m

/-- Response body of the ONNX server `predict` endpoint. -/
structure OnnxResponse where
  predictions : List Int
  probabilities : List (List Rat)
  model_name : String
  model_type : String
deriving DecidableEq

/-- The `try` block of the ONNX server `predict` (main.py lines 161-191):
numpy conversion, shape validation raising a 400 `HTTPException`, and the
inference run. -/
def onnxBody (st : OnnxState) (engine : EngineFun) (data : List (List Rat)) :
    Except PyExc OnnxResponse :=
  if !(data.all fun r => r.length == (data.head?.getD []).length) then
    Except.error (PyExc.valueError "setting an array element with a sequence")
  else
    match data.head? with
    | none => Except.error (PyExc.valueError "tuple index out of range")
    | some r0 =>
      let run : Except PyExc OnnxResponse :=
        match engine data with
        | Except.error m => Except.error (PyExc.valueError m)
        | Except.ok (preds, probs) =>
          Except.ok ⟨preds, probs.getD [],
            st.metadata.model_name.getD "unknown", st.metadata.model_type.getD "unknown"⟩
      match st.metadata.input_features with
      | some ef =>
        if ef != 0 && r0.length != ef then
          Except.error (PyExc.http 400
            ("Invalid input shape. Expected " ++ toString ef ++ " features, got "
              ++ toString r0.length))
        else run
      | none => run

/-- The ONNX server `predict` endpoint (main.py lines 152-198): the loaded
check (503, raised outside the `try`), then the body, whose `except
Exception` clause catches every exception — including the 400
`HTTPException` raised by shape validation — and rewraps it as a 500. -/
def onnxPredict (st : OnnxState) (engine : EngineFun) (data : List (List Rat)) :
    Except ApiError OnnxResponse :=
  if st.session.isNone then Except.error ⟨503, "Model not loaded"⟩
  else
    match onnxBody st engine data with
    | Except.ok r => Except.ok r
    | Except.error e => Except.error ⟨500, "Prediction failed: " ++ pyExcStr e⟩

/-! ### Metrics collector (utils.py, class MetricsCollector) -/

/-- The metrics collector state (utils.py lines 199-207).  Durations are
rationals standing for the float seconds. -/
structure MetricsCollector where
  prediction_times : List Rat
  prediction_counts : Nat
  error_counts : Nat
  cache_hits : Nat
  cache_misses : Nat
deriving DecidableEq

/-- The collector as constructed by `__init__`. -/
def initMetrics : MetricsCollector := ⟨[], 0, 0, 0, 0⟩

/-- `record_prediction` (utils.py lines 209-215): append the duration, then
increment the success counter or the error counter. -/
def record_prediction (m : MetricsCollector) (duration : Rat) (success : Bool) :
    MetricsCollector :=
  let m1 := { m with prediction_times := m.prediction_times ++ [duration] }
  if success then { m1 with prediction_counts := m1.prediction_counts + 1 }
  else { m1 with error_counts := m1.error_counts + 1 }

/-- `record_cache_hit` (utils.py lines 217-219). -/
def record_cache_hit (m : MetricsCollector) : MetricsCollector :=
  { m with cache_hits := m.cache_hits + 1 }

/-- `record_cache_miss` (utils.py lines 221-223). -/
def record_cache_miss (m : MetricsCollector) : MetricsCollector :=
  { m with cache_misses := m.cache_misses + 1 }

/-- One call against the collector. -/
inductive MOp where
  | pred (duration : Rat) (success : Bool)
  | hit
  | miss
deriving DecidableEq

/-- Dispatch of one recorded call. -/
def applyOp (m : MetricsCollector) : MOp → MetricsCollector
  | MOp.pred d s => record_prediction m d s
  | MOp.hit => record_cache_hit m
  | MOp.miss => record_cache_miss m

/-- A whole call sequence against the collector. -/
def applyOps (m : MetricsCollector) (ops : List MOp) : MetricsCollector :=
  ops.foldl applyOp m

/-! ### Concrete fixtures used by the witness and counterexample theorems -/

/-- A concrete process hash function for the fixtures. -/
def tokVal : JTok → Int
  | JTok.lb => 2
  | JTok.rb => 3
  | JTok.comma => 5
  | JTok.num q => 7 + q.num + (q.den : Int)

/-- A concrete process hash function folding over the token stream. -/
def hashF0 (toks : List JTok) : Int :=
  toks.foldl (fun a t => 31 * a + tokVal t) 0

/-- A concrete engine: one predicted label with a two-class probability row summing to one. -/
def engine0 : EngineFun := fun _ => Except.ok ([1], some [[(1 : Rat), 0]])

/-- A loaded manager expecting two features. -/
def mmA : ModelManager := ⟨some 0, ⟨some "rf", some "classification", some 2⟩⟩

/-- A fresh server state with Redis available and healthy. -/
def stA : ServerState := ⟨some mmA, true, false, false, [], 0⟩

/-- A well-shaped request with caching enabled. -/
def reqA : PredictionRequest := ⟨[[1, 2]], true, 3600⟩

/-- A loaded manager expecting ten features. -/
def mmB : ModelManager := ⟨some 0, ⟨some "rf", some "classification", some 10⟩⟩

/-- A fresh server state whose model expects ten features. -/
def stB : ServerState := ⟨some mmB, true, false, false, [], 0⟩

/-- The response computed by the engine fixture on `reqA`. -/
def respA : PredictionResponse := ⟨[1], [[(1 : Rat), 0]], ModelInfo.info "rf" false⟩

/-! ### Helper lemmas: the JSON token serialization is injective -/

/-- Cancellation for row bodies: the comma-separated numbers of a row,
followed by a closing bracket, determine the row and the remaining tokens. -/
theorem serRowAux_cancel :
    ∀ (r1 r2 : List Rat) (t1 t2 : List JTok),
      serRowAux r1 ++ JTok.rb :: t1 = serRowAux r2 ++ JTok.rb :: t2 →
      r1 = r2 ∧ t1 = t2
  | [], [], t1, t2, h => by
      simpa [serRowAux] using h
  | [], [y], t1, t2, h => by
      simp [serRowAux] at h
  | [], y :: z :: s, t1, t2, h => by
      simp [serRowAux] at h
  | [x], [], t1, t2, h => by
      simp [serRowAux] at h
  | [x], [y], t1, t2, h => by
      simp [serRowAux] at h
      exact ⟨by rw [h.1], h.2⟩
  | [x], y :: z :: s, t1, t2, h => by
      simp [serRowAux] at h
  | x :: y :: t, [], t1, t2, h => by
      simp [serRowAux] at h
  | x :: y :: t, [z], t1, t2, h => by
      simp [serRowAux] at h
  | x :: y :: t, z :: w :: s, t1, t2, h => by
      simp only [serRowAux, List.cons_append, List.cons.injEq, JTok.num.injEq] at h
      obtain ⟨hx, -, hrest⟩ := h
      obtain ⟨hr, ht⟩ := serRowAux_cancel (y :: t) (w :: s) t1 t2 hrest
      exact ⟨by rw [hx, hr], ht⟩

/-- Cancellation for matrix bodies: the comma-separated bracketed rows,
followed by a closing bracket, determine the matrix and the remaining
tokens. -/
theorem serMatAux_cancel :
    ∀ (m1 m2 : List (List Rat)) (t1 t2 : List JTok),
      serMatAux m1 ++ JTok.rb :: t1 = serMatAux m2 ++ JTok.rb :: t2 →
      m1 = m2 ∧ t1 = t2
  | [], [], t1, t2, h => by
      simpa [serMatAux] using h
  | [], [r], t1, t2, h => by
      simp [serMatAux, serRow] at h
  | [], r :: s :: t, t1, t2, h => by
      simp [serMatAux, serRow] at h
  | [r], [], t1, t2, h => by
      simp [serMatAux, serRow] at h
  | [r1], [r2], t1, t2, h => by
      simp only [serMatAux, serRow, List.cons_append, List.append_assoc,
        List.singleton_append, List.cons.injEq, true_and] at h
      obtain ⟨hr, ht⟩ := serRowAux_cancel r1 r2 (JTok.rb :: t1) (JTok.rb :: t2) h
      exact ⟨by rw [hr], by injection ht⟩
  | [r1], r2 :: s2 :: t2m, t1, t2, h => by
      simp only [serMatAux, serRow, List.cons_append, List.append_assoc,
        List.singleton_append, List.cons.injEq, true_and] at h
      obtain ⟨-, ht⟩ := serRowAux_cancel r1 r2
        (JTok.rb :: t1) (JTok.comma :: (serMatAux (s2 :: t2m) ++ JTok.rb :: t2)) h
      exact absurd ht (by simp)
  | r1 :: s1 :: t1m, [], t1, t2, h => by
      simp [serMatAux, serRow] at h
  | r1 :: s1 :: t1m, [r2], t1, t2, h => by
      simp only [serMatAux, serRow, List.cons_append, List.append_assoc,
        List.singleton_append, List.cons.injEq, true_and] at h
      obtain ⟨-, ht⟩ := serRowAux_cancel r1 r2
        (JTok.comma :: (serMatAux (s1 :: t1m) ++ JTok.rb :: t1)) (JTok.rb :: t2) h
      exact absurd ht (by simp)
  | r1 :: s1 :: t1m, r2 :: s2 :: t2m, t1, t2, h => by
      simp only [serMatAux, serRow, List.cons_append, List.append_assoc,
        List.singleton_append, List.cons.injEq, true_and] at h
      obtain ⟨hr, ht⟩ := serRowAux_cancel r1 r2
        (JTok.comma :: (serMatAux (s1 :: t1m) ++ JTok.rb :: t1))
        (JTok.comma :: (serMatAux (s2 :: t2m) ++ JTok.rb :: t2)) h
      have ht2 : serMatAux (s1 :: t1m) ++ JTok.rb :: t1
          = serMatAux (s2 :: t2m) ++ JTok.rb :: t2 := by injection ht
      obtain ⟨hm, htt⟩ := serMatAux_cancel (s1 :: t1m) (s2 :: t2m) t1 t2 ht2
      exact ⟨by rw [hr, hm], htt⟩

/-- The canonical JSON serialization of the request matrix is injective:
distinct matrices (different values or different row order) always serialize
differently. -/
theorem jsonTokens_inj {m1 m2 : List (List Rat)} (h : jsonTokens m1 = jsonTokens m2) :
    m1 = m2 := by
  simp only [jsonTokens] at h
  injection h with h1 h2
  exact (serMatAux_cancel m1 m2 [] [] h2).1

/-- C9: the cache fingerprint is deterministic (it is a pure function of the
rows), the canonical serialization it hashes is injective — any change of a
value or of row order changes the hashed text — and therefore two distinct
matrices receive distinct cache keys whenever the process hash does not
collide on their serializations (the "overwhelming probability" caveat). -/
theorem fingerprint_deterministic_and_order_sensitive
    (hashF : List JTok → Int) (d1 d2 : List (List Rat)) :
    fingerprint hashF d1 = fingerprint hashF d1 ∧
    (d1 ≠ d2 → jsonTokens d1 ≠ jsonTokens d2) ∧
    (d1 ≠ d2 → hashF (jsonTokens d1) ≠ hashF (jsonTokens d2) →
      fingerprint hashF d1 ≠ fingerprint hashF d2) := by
  refine ⟨rfl, fun hne h => hne (jsonTokens_inj h), fun hne hcoll hfp => ?_⟩
  exact hcoll (congrArg CacheKey.hashVal hfp)

/-- Witness for C9 at concrete inputs: swapping the two rows changes the
cache key under the fixture hash. -/
theorem fingerprint_deterministic_and_order_sensitive_witness :
    fingerprint hashF0 [[1], [2]] ≠ fingerprint hashF0 [[2], [1]] := by
  have h := fingerprint_deterministic_and_order_sensitive hashF0 [[1], [2]] [[2], [1]]
  exact h.2.2 (by decide) (by decide)

/-! ### Helper lemmas: the metrics invariant -/

/-- One recorded call preserves the counts-versus-samples invariant. -/
theorem metrics_inv_step (m : MetricsCollector) (op : MOp)
    (h : m.prediction_counts + m.error_counts = m.prediction_times.length) :
    (applyOp m op).prediction_counts + (applyOp m op).error_counts
      = (applyOp m op).prediction_times.length := by
  cases op with
  | pred d s => cases s <;> simp [applyOp, record_prediction] <;> omega
  | hit => simpa [applyOp, record_cache_hit] using h
  | miss => simpa [applyOp, record_cache_miss] using h

/-- The invariant is preserved by any call sequence. -/
theorem metrics_inv_ops :
    ∀ (ops : List MOp) (m : MetricsCollector),
      m.prediction_counts + m.error_counts = m.prediction_times.length →
      (applyOps m ops).prediction_counts + (applyOps m ops).error_counts
        = (applyOps m ops).prediction_times.length
  | [], m, h => by simpa [applyOps] using h
  | op :: ops, m, h => by
      have h1 := metrics_inv_step m op h
      simpa [applyOps, List.foldl] using
        metrics_inv_ops ops (applyOp m op) (by simpa [applyOps] using h1)

/-- C10: after any sequence of `record_prediction`, `record_cache_hit` and
`record_cache_miss` calls on a fresh collector, the success and error counts
sum to the number of retained latency samples; and every `record_prediction`
call appends exactly one sample and increments exactly one of the two
counters. -/
theorem metrics_counts_match_samples :
    (∀ ops : List MOp,
      (applyOps initMetrics ops).prediction_counts
          + (applyOps initMetrics ops).error_counts
        = (applyOps initMetrics ops).prediction_times.length) ∧
    (∀ (m : MetricsCollector) (d : Rat) (s : Bool),
      (record_prediction m d s).prediction_times.length
          = m.prediction_times.length + 1 ∧
      (record_prediction m d s).prediction_counts
          + (record_prediction m d s).error_counts
        = m.prediction_counts + m.error_counts + 1) := by
  constructor
  · intro ops
    exact metrics_inv_ops ops initMetrics (by simp [initMetrics])
  · intro m d s
    cases s <;> simp [record_prediction] <;> omega

/-! ### Helper lemmas: the batch loop -/

/-- The batch result has one slot per request. -/
theorem runBatch_length (hashF : List JTok → Int) (engine : EngineFun) :
    ∀ (reqs : List PredictionRequest) (st : ServerState),
      (runBatch hashF engine st reqs).snd.length = reqs.length
  | [], _ => rfl
  | r :: rs, st => by
      simp [runBatch, runBatch_length hashF engine rs]

/-- Slot `i` of the batch result is exactly the outcome of running `predict`
on request `i` in the state left by the preceding slots: the response on
success, the error marker on failure. -/
theorem runBatch_get (hashF : List JTok → Int) (engine : EngineFun) :
    ∀ (reqs : List PredictionRequest) (st : ServerState) (i : Nat) (req : PredictionRequest),
      reqs[i]? = some req →
      (runBatch hashF engine st reqs).snd[i]? = some
        (match (predictStep hashF engine (stateAt hashF engine st reqs i) req).result with
         | Except.ok resp => resp
         | Except.error e => errorMarker e.detail)
  | [], _, i, _, h => by simp at h
  | r :: rs, st, 0, req, h => by
      simp only [List.getElem?_cons_zero, Option.some.injEq] at h
      subst h
      simp [runBatch, stateAt]
  | r :: rs, st, i + 1, req, h => by
      simp only [List.getElem?_cons_succ] at h
      simpa [runBatch, stateAt] using
        runBatch_get hashF engine rs (predictStep hashF engine st r).state i req h

/-- C5: for every batch accepted by `predict_batch`, the result sequence has
the same length as the input and is positionally aligned with it — slot `i`
is the response of running `predict` on request `i` in the state left by the
earlier slots, or the error marker carrying the error detail when that run
failed — so no single failing slot aborts the processing of the others. -/
theorem batch_positional_isolation
    (hashF : List JTok → Int) (engine : EngineFun) (st : ServerState)
    (reqs : List PredictionRequest) (stF : ServerState)
    (results : List PredictionResponse)
    (h : predictBatch hashF engine st reqs = Except.ok (stF, results)) :
    results.length = reqs.length ∧
    ∀ i req, reqs[i]? = some req →
      results[i]? = some
        (match (predictStep hashF engine (stateAt hashF engine st reqs i) req).result with
         | Except.ok resp => resp
         | Except.error e => errorMarker e.detail) := by
  unfold predictBatch at h
  split at h
  · have hpair : runBatch hashF engine st reqs = (stF, results) := by
      injection h
    have hres : results = (runBatch hashF engine st reqs).snd := by rw [hpair]
    subst hres
    exact ⟨runBatch_length hashF engine reqs st, fun i req hi =>
      runBatch_get hashF engine reqs st i req hi⟩
  · exact absurd h (by simp)

/-- A request whose single row has three features, against the two-feature
fixture model. -/
def reqBad : PredictionRequest := ⟨[[1, 2, 3]], true, 3600⟩

/-- A second well-shaped request. -/
def reqC : PredictionRequest := ⟨[[3, 4]], true, 3600⟩

/-- The three-request batch of the spec scenario: slot 2 has a shape
mismatch. -/
def reqsW : List PredictionRequest := [reqA, reqBad, reqC]

/-- Witness for C5 at the spec's concrete scenario: a batch of three requests
whose middle request has a shape mismatch yields three slots, with the middle
slot carrying the error marker and the outer slots real responses. -/
theorem batch_positional_isolation_witness :
    (runBatch hashF0 engine0 stA reqsW).snd.length = 3 ∧
    (runBatch hashF0 engine0 stA reqsW).snd[1]? = some
      (errorMarker "Prediction failed: Invalid input shape. Expected 2 features, got 3") ∧
    (runBatch hashF0 engine0 stA reqsW).snd[0]? = some respA ∧
    (runBatch hashF0 engine0 stA reqsW).snd[2]?
      = some ⟨[1], [[(1 : Rat), 0]], ModelInfo.info "rf" false⟩ := by
  have h := batch_positional_isolation hashF0 engine0 stA reqsW
    (runBatch hashF0 engine0 stA reqsW).fst (runBatch hashF0 engine0 stA reqsW).snd rfl
  refine ⟨by simpa using h.1, ?_, ?_, ?_⟩
  · exact (h.2 1 reqBad rfl).trans (by decide)
  · exact (h.2 0 reqA rfl).trans (by decide)
  · exact (h.2 2 reqC rfl).trans (by decide)

/-! ### C1: the cached flag on a repeated identical request -/

/-- C1: the claim says the second identical request (caching on, backend
healthy, entry unexpired) gets a response whose cached flag is true.  In the
code the first response is stored with `"cached": False` and a cache hit
returns the stored blob verbatim, so the second response is bit-identical to
the first — including its false cached flag.  The trace of the second call
shows only the cache lookup (no engine run): the response was served from the
cache, yet `cached` is false. -/
theorem cached_flag_false_on_second_identical_request :
    (predictStep hashF0 engine0 stA reqA).result = Except.ok respA ∧
    (predictStep hashF0 engine0 (predictStep hashF0 engine0 stA reqA).state reqA).result
      = Except.ok respA ∧
    (predictStep hashF0 engine0 (predictStep hashF0 engine0 stA reqA).state reqA).events
      = [Event.cacheLookup] ∧
    respA.cachedFlag = some false := by
  refine ⟨by decide, by decide, by decide, by decide⟩

/-! ### C2: ordering of shape validation and cache lookup -/

/-- C2 counterexample: a request whose feature count (2) differs from the
model's expected count (10), submitted with caching enabled and the backend
available, performs a Redis cache lookup before failing — the claim says a
shape-mismatched request performs no cache lookup. -/
theorem cache_lookup_precedes_shape_validation :
    Event.cacheLookup ∈ (predictStep hashF0 engine0 stB reqA).events ∧
    (predictStep hashF0 engine0 stB reqA).result
      = Except.error
          ⟨500, "Prediction failed: Invalid input shape. Expected 10 features, got 2"⟩ := by
  refine ⟨by decide, by decide⟩

/-- C2 (amended): shape validation runs inside the inference step, after the
cache lookup.  A request whose feature count differs from the model's
expected (nonzero) count, and whose key is not in the cache, fails with the
shape-mismatch error, performs no inference call, leaves the server state —
including the success counter and the cache — untouched, and performs a
cache lookup exactly when the backend is available and the request enables
caching. -/
theorem shape_mismatch_no_inference_no_counters
    (hashF : List JTok → Int) (engine : EngineFun) (st : ServerState)
    (mm : ModelManager) (req : PredictionRequest) (ef : Nat) (r0 : List Rat)
    (hmm : st.mm = some mm) (hs : mm.session.isSome = true)
    (hef : mm.metadata.input_features = some ef) (hef0 : ef ≠ 0)
    (h0 : req.data.head? = some r0)
    (hrect : (req.data.all fun r => r.length == r0.length) = true)
    (hne : r0.length ≠ ef)
    (hmiss : cacheGet st (fingerprint hashF req.data) = none) :
    (predictStep hashF engine st req).result
      = Except.error ⟨500, "Prediction failed: "
          ++ predictErrorMsg (PredictError.shapeMismatch ef r0.length)⟩ ∧
    (predictStep hashF engine st req).state = st ∧
    Event.engineRun ∉ (predictStep hashF engine st req).events ∧
    Event.successInc ∉ (predictStep hashF engine st req).events ∧
    (Event.cacheLookup ∈ (predictStep hashF engine st req).events
      ↔ (st.redisAvailable && req.use_cache) = true) := by
  obtain ⟨s, hsess⟩ := Option.isSome_iff_exists.mp hs
  have hmp : mmPredict mm engine req.data
      = (Except.error (PredictError.shapeMismatch ef r0.length), false) := by
    unfold mmPredict
    rw [hsess]
    simp only [Option.isNone_some, Bool.false_eq_true, if_false]
    rw [h0]
    simp only [Option.getD_some, hrect, Bool.not_true, Bool.false_eq_true, if_false]
    rw [hef]
    have hcheck : (ef != 0 && r0.length != ef) = true := by
      simp [bne_iff_ne, hef0, hne]
    simp [hcheck]
  unfold predictStep
  rw [hmm]
  simp only [hsess, Option.isNone_some, Bool.false_eq_true, if_false]
  cases hru : st.redisAvailable && req.use_cache with
  | false =>
    simp [hru, hmp]
  | true =>
    simp [hru, hmiss, hmp]

/-- Witness for C2 (amended) at the concrete mismatch fixture. -/
theorem shape_mismatch_no_inference_no_counters_witness :
    (predictStep hashF0 engine0 stB reqA).result
      = Except.error ⟨500, "Prediction failed: "
          ++ predictErrorMsg (PredictError.shapeMismatch 10 2)⟩ ∧
    (predictStep hashF0 engine0 stB reqA).state = stB := by
  have h := shape_mismatch_no_inference_no_counters hashF0 engine0 stB mmB reqA 10 [1, 2]
    rfl rfl rfl (by decide) rfl (by decide) (by decide) (by decide)
  exact ⟨h.1, h.2.1⟩

/-! ### C7: how a shape mismatch is surfaced -/

/-- Metadata of the loaded fixture model of the ONNX server. -/
def stO : OnnxState :=
  ⟨some 0, ⟨some "random_forest_classifier", some "classification", some 10⟩⟩

/-- C7: the claim says a shape mismatch is surfaced as a client-input error,
distinct from a server-side error.  In the ONNX server the 400
`HTTPException` raised by shape validation is caught by the enclosing
`except Exception` and rewrapped as HTTP 500 with the stringified 400 inside
the detail; in the pipeline API the shape `ValueError` is likewise rewrapped
as HTTP 500.  Both callers see a server-side error. -/
theorem shape_mismatch_surfaced_as_server_error :
    onnxPredict stO engine0 [[1, 2]]
      = Except.error
          ⟨500, "Prediction failed: 400: Invalid input shape. Expected 10 features, got 2"⟩ ∧
    (predictStep hashF0 engine0 stB reqA).result
      = Except.error
          ⟨500, "Prediction failed: Invalid input shape. Expected 10 features, got 2"⟩ := by
  refine ⟨by decide, by decide⟩

/-! ### C3: atomicity and fails-open behavior of reload -/

/-- A manager holding the previously loaded session and metadata. -/
def mmOld : ModelManager := ⟨some 7, ⟨some "old_model", some "classification", some 4⟩⟩

/-- A reload environment whose session construction succeeds but whose
metadata document is corrupt. -/
def envBadMeta : LoadEnv :=
  ⟨["new_model.onnx"], Except.ok 8, some (Except.error "Expecting value")⟩

/-- A reload environment that fails at session construction. -/
def envNoSession : LoadEnv := ⟨["new_model.onnx"], Except.error "boom", none⟩

/-- A reload environment that succeeds with a fresh metadata document. -/
def envGood : LoadEnv :=
  ⟨["new_model.onnx"], Except.ok 9,
    some (Except.ok ⟨some "new_model", some "classification", some 2⟩)⟩

/-- C3 counterexample: when the session constructs but the metadata document
fails to parse, `load_models` raises after having already replaced
`self.session`.  The observer sees the new session paired with the old
metadata — neither fully-old nor fully-new — and the failed reload did not
leave the previous session in place. -/
theorem reload_metadata_failure_leaves_mixed_state :
    (loadModels mmOld envBadMeta).snd = Except.error "Expecting value" ∧
    (loadModels mmOld envBadMeta).fst.session = some 8 ∧
    (loadModels mmOld envBadMeta).fst.session ≠ mmOld.session ∧
    (loadModels mmOld envBadMeta).fst.metadata = mmOld.metadata := by
  refine ⟨by decide, by decide, by decide, by decide⟩

/-- C3 (amended): reload fails open only for failures that happen before the
new session is installed — a missing model file or a failed session
construction leaves the manager exactly as it was.  A successful reload
installs the new session together with the new metadata (read from the
document, or synthesized from the artifact name).  But a metadata failure
after the session was installed leaves the new session paired with the old
metadata, so the swap is not atomic. -/
theorem reload_fails_open_before_session_swap (mm : ModelManager) (env : LoadEnv) :
    (env.modelFiles = [] →
      loadModels mm env = (mm, Except.error "No ONNX models found")) ∧
    (∀ e f t, env.sessionLoad = Except.error e → env.modelFiles = f :: t →
      loadModels mm env = (mm, Except.error e)) ∧
    (∀ u, (loadModels mm env).snd = Except.ok u →
      ∃ s, env.sessionLoad = Except.ok s ∧
        (loadModels mm env).fst.session = some s ∧
        ((∃ md, env.metadataDoc = some (Except.ok md) ∧
            (loadModels mm env).fst.metadata = md) ∨
          (env.metadataDoc = none ∧ ∃ f t, env.modelFiles = f :: t ∧
            (loadModels mm env).fst.metadata = ⟨some (stem f), some "unknown", none⟩))) := by
  obtain ⟨files, sload, mdoc⟩ := env
  refine ⟨?_, ?_, ?_⟩
  · intro hfiles
    subst hfiles
    simp [loadModels]
  · intro e f t hsl hfiles
    subst hsl
    subst hfiles
    simp [loadModels]
  · intro u hok
    cases files with
    | nil => simp [loadModels] at hok
    | cons f t =>
      cases sload with
      | error e => simp [loadModels] at hok
      | ok s =>
        cases mdoc with
        | none =>
          exact ⟨s, rfl, rfl, Or.inr ⟨rfl, f, t, rfl, rfl⟩⟩
        | some doc =>
          cases doc with
          | error e => simp [loadModels] at hok
          | ok md => exact ⟨s, rfl, rfl, Or.inl ⟨md, rfl, rfl⟩⟩

/-- Witness for C3 (amended): a session-construction failure leaves the old
manager untouched, and a successful reload installs the new session. -/
theorem reload_fails_open_before_session_swap_witness :
    loadModels mmOld envNoSession = (mmOld, Except.error "boom") ∧
    (∃ s, envGood.sessionLoad = Except.ok s ∧
      (loadModels mmOld envGood).fst.session = some s) := by
  have h1 := reload_fails_open_before_session_swap mmOld envNoSession
  have h2 := reload_fails_open_before_session_swap mmOld envGood
  refine ⟨h1.2.1 "boom" "new_model.onnx" [] rfl rfl, ?_⟩
  exact (h2.2.2 () rfl).imp fun s hs => ⟨hs.1, hs.2.1⟩

/-! ### C4: cache failures never surface -/

/-- C4: with the cache backend failing on both lookup and store, a predict
call whose inference succeeds still succeeds, returns the freshly computed
labels and probabilities with a false cached flag, and leaves the cache
contents untouched (the failed store is swallowed). -/
theorem cache_failures_never_surface
    (hashF : List JTok → Int) (engine : EngineFun) (st : ServerState)
    (mm : ModelManager) (req : PredictionRequest)
    (p : List Int) (pr : List (List Rat))
    (hmm : st.mm = some mm) (hs : mm.session.isSome = true)
    (hget : st.cacheGetFails = true) (hset : st.cacheSetFails = true)
    (hp : (mmPredict mm engine req.data).fst = Except.ok (p, pr)) :
    (predictStep hashF engine st req).result
      = Except.ok ⟨p, pr, ModelInfo.info (getModelName mm) false⟩ ∧
    (predictStep hashF engine st req).state.cache = st.cache := by
  obtain ⟨s, hsess⟩ := Option.isSome_iff_exists.mp hs
  cases hmp : mmPredict mm engine req.data with
  | mk res ran =>
    rw [hmp] at hp
    simp only at hp
    subst hp
    unfold predictStep
    rw [hmm]
    simp only [hsess, Option.isNone_some, Bool.false_eq_true, if_false]
    cases hru : st.redisAvailable && req.use_cache with
    | false =>
      simp [hru, hmp]
    | true =>
      simp [hru, cacheGet, hget, hmp, hset]

/-- Witness for C4: the healthy-engine fixture against an always-failing
backend. -/
def stFail : ServerState := ⟨some mmA, true, true, true, [], 0⟩

/-- Witness for C4 at the concrete fixture. -/
theorem cache_failures_never_surface_witness :
    (predictStep hashF0 engine0 stFail reqA).result = Except.ok respA ∧
    (predictStep hashF0 engine0 stFail reqA).state.cache = stFail.cache := by
  have h := cache_failures_never_surface hashF0 engine0 stFail mmA reqA
    [1] [[(1 : Rat), 0]] rfl rfl rfl rfl (by decide)
  exact ⟨h.1, h.2⟩

/-! ### C6: reload flushes the cache -/

/-- The fixture cache key of request `reqA`. -/
def kA : CacheKey := fingerprint hashF0 [[1, 2]]

/-- A state holding one cached response, about to be reloaded. -/
def stC : ServerState := ⟨some mmOld, true, false, false, [(kA, respA)], 5⟩

/-- C6 counterexample: when the Redis `flushdb` fails during `reload_models`,
the error is swallowed — the endpoint still reports success with the new
model name, and a lookup for a fingerprint cached before the reload still
returns the stale entry instead of a miss. -/
theorem reload_flush_failure_retains_cache :
    (reloadModels stC envGood true).snd = Except.ok "new_model" ∧
    cacheGet (reloadModels stC envGood true).fst kA = some respA := by
  refine ⟨by decide, by decide⟩

/-- C6 (amended): after a `reload_models` call in which the model load and
the cache flush both succeed (backend available), every fingerprint cached
before the reload misses, and the endpoint returns the newly loaded
metadata's model name. -/
theorem reload_flush_success_clears_cache (st : ServerState) (env : LoadEnv)
    (hredis : st.redisAvailable = true)
    (hok : (loadModels (st.mm.getD ⟨none, emptyMetadata⟩) env).snd = Except.ok ()) :
    (reloadModels st env false).fst.cache = [] ∧
    (∀ k, cacheGet (reloadModels st env false).fst k = none) ∧
    (reloadModels st env false).snd
      = Except.ok (getModelName (loadModels (st.mm.getD ⟨none, emptyMetadata⟩) env).fst) := by
  simp only [reloadModels]
  rw [hok]
  simp only [hredis, Bool.not_false, Bool.and_self, if_true]
  refine ⟨trivial, ?_, trivial⟩
  intro k
  simp [cacheGet]

/-- Witness for C6 (amended) at the concrete fixture: the previously cached
fingerprint misses after a clean reload. -/
theorem reload_flush_success_clears_cache_witness :
    cacheGet (reloadModels stC envGood false).fst kA = none ∧
    (reloadModels stC envGood false).snd = Except.ok "new_model" := by
  have h := reload_flush_success_clears_cache stC envGood rfl (by decide)
  exact ⟨h.2.1 kA, h.2.2.trans (by decide)⟩

/-! ### C8: response lengths and probability sums -/

/-- C8: for a well-shaped request of N rows that misses the cache, with the
engine honoring its contract (N labels, N probability rows, each summing to
one within tolerance), the response passes the engine output through
unchanged: exactly N labels, exactly N probability vectors, each summing to
one within the tolerance. -/
theorem response_lengths_and_probability_sums
    (hashF : List JTok → Int) (engine : EngineFun) (st : ServerState)
    (mm : ModelManager) (req : PredictionRequest)
    (labels : List Int) (probs : List (List Rat)) (r0 : List Rat)
    (hmm : st.mm = some mm) (hs : mm.session.isSome = true)
    (h0 : req.data.head? = some r0)
    (hrect : (req.data.all fun r => r.length == r0.length) = true)
    (hef : mm.metadata.input_features = some r0.length)
    (heng : engine req.data = Except.ok (labels, some probs))
    (hlab : labels.length = req.data.length)
    (hprob : probs.length = req.data.length)
    (hsum : ∀ p ∈ probs, |p.sum - 1| ≤ (1 : Rat) / 10000)
    (hmiss : cacheGet st (fingerprint hashF req.data) = none) :
    ∃ resp, (predictStep hashF engine st req).result = Except.ok resp ∧
      resp.predictions.length = req.data.length ∧
      resp.probabilities.length = req.data.length ∧
      ∀ p ∈ resp.probabilities, |p.sum - 1| ≤ (1 : Rat) / 10000 := by
  obtain ⟨s, hsess⟩ := Option.isSome_iff_exists.mp hs
  have hmp : mmPredict mm engine req.data = (Except.ok (labels, probs), true) := by
    unfold mmPredict
    rw [hsess]
    simp only [Option.isNone_some, Bool.false_eq_true, if_false]
    rw [h0]
    simp only [Option.getD_some, hrect, Bool.not_true, Bool.false_eq_true, if_false]
    rw [hef]
    simp [heng]
  refine ⟨⟨labels, probs, ModelInfo.info (getModelName mm) false⟩, ?_, hlab, hprob, hsum⟩
  unfold predictStep
  rw [hmm]
  simp only [hsess, Option.isNone_some, Bool.false_eq_true, if_false]
  cases hru : st.redisAvailable && req.use_cache with
  | false => simp [hru, hmp]
  | true => simp [hru, hmiss, hmp]

/-- Witness for C8 at the concrete fixture: one row in, one label and one
probability vector out, summing exactly to one. -/
theorem response_lengths_and_probability_sums_witness :
    ∃ resp, (predictStep hashF0 engine0 stA reqA).result = Except.ok resp ∧
      resp.predictions.length = reqA.data.length ∧
      resp.probabilities.length = reqA.data.length ∧
      ∀ p ∈ resp.probabilities, |p.sum - 1| ≤ (1 : Rat) / 10000 := by
  exact response_lengths_and_probability_sums hashF0 engine0 stA mmA reqA
    [1] [[(1 : Rat), 0]] [1, 2] rfl rfl rfl (by decide) rfl rfl rfl rfl
    (by intro p hp; simp at hp; subst hp; norm_num) (by decide)

end MLServe
